import Mathlib

/-!
Verification model of the `pypicoboot` ESP32 boot controller
(`picoboot/espboot.py`, `picoboot/espbootmonitor.py`, `picoboot/platform.py`).

The Python source is shallowly embedded: each method becomes a Lean function
over an explicit controller state, with the external flashing toolkit and the
serial-port enumeration supplied as oracle arguments.  Python exceptions are
modelled with `Except`; Python `bytes` values are lists of naturals below 256.
String processing is carried out on character lists so that every definition
reduces inside the kernel.
-/

namespace Espboot

instance {ε : Type u} {α : Type v} [DecidableEq ε] [DecidableEq α] :
    DecidableEq (Except ε α) := fun
  | .ok a, .ok b =>
    if h : a = b then .isTrue (by rw [h]) else .isFalse (by intro hc; cases hc; exact h rfl)
  | .ok _, .error _ => .isFalse (by intro hc; cases hc)
  | .error _, .ok _ => .isFalse (by intro hc; cases hc)
  | .error e, .error f =>
    if h : e = f then .isTrue (by rw [h]) else .isFalse (by intro hc; cases hc; exact h rfl)

/-- Modelled from the spec: the error-kind hierarchy of `picoboot/core/exceptions.py`
(not present in the sources).  Per the spec there are, for the ESP32 family,
three distinct kinds: a generic operation failure (`EspBootError`), a
"no device found" failure (`EspBootNotFoundError`) and an "invalid state"
failure (`EspBootInvalidStateError`), each carrying a human-readable message
whose textual rendering is the message itself. -/
inductive EspBootErr where
  | generic (msg : String)
  | notFound (msg : String)
  | invalidState (msg : String)
deriving DecidableEq, Repr

/-- The message carried by an error: Python `str(e)` for these exception kinds. -/
def EspBootErr.msg : EspBootErr → String
  | .generic m => m
  | .notFound m => m
  | .invalidState m => m

/-- Whether an error is the ESP32-family not-found kind. -/
def EspBootErr.isNotFound : EspBootErr → Bool
  | .notFound _ => true
  | _ => false

/-- Whether an error is the ESP32-family invalid-state kind. -/
def EspBootErr.isInvalidState : EspBootErr → Bool
  | .invalidState _ => true
  | _ => false

/-- A Python-level failure escaping an `EspBoot` method: either one of the
library's own error kinds, an `OverflowError` from `int.to_bytes`, an
`AttributeError` from resolving a missing attribute, an `OSError` from the
builtin `open`, or an exception propagated from the external toolkit. -/
inductive PyErr where
  | esp (e : EspBootErr)
  | overflow
  | attrError
  | ioError
  | toolkit
deriving DecidableEq, Repr

/-- A dynamically typed Python value in the positions where the code branches
on `None` / `int` / `str` (the flash-size descriptor). -/
inductive PyVal where
  | none
  | int (n : Int)
  | str (s : String)
deriving DecidableEq, Repr

/-! ### Python string primitives, on character lists -/

/-- `charsContain needle hay` is Python `needle in hay` on the underlying
character lists: `needle` occurs contiguously inside `hay`. -/
def charsContain (needle : List Char) : List Char → Bool
  | [] => needle.isEmpty
  | c :: rest => needle.isPrefixOf (c :: rest) || charsContain needle rest

/-- Python `needle in hay` for strings. -/
def strContains (hay needle : String) : Bool :=
  charsContain needle.toList hay.toList

/-- Python `str.lower()` (ASCII range; no input here uses non-ASCII case). -/
def lowerChars (cs : List Char) : List Char := cs.map Char.toLower

/-- Python `str.upper()` (ASCII range). -/
def upperChars (cs : List Char) : List Char := cs.map Char.toUpper

/-- Python `str.strip()`: whitespace removed from both ends. -/
def stripChars (cs : List Char) : List Char :=
  ((cs.dropWhile Char.isWhitespace).reverse.dropWhile Char.isWhitespace).reverse

/-- Python `s.endswith(suffix)` on character lists. -/
def charsEndWith (cs suffix : List Char) : Bool :=
  suffix.reverse.isPrefixOf cs.reverse

/-- Python `s[:-n]` (for `0 < n ≤ len s`) on character lists. -/
def charsDropRight (cs : List Char) (n : Nat) : List Char :=
  cs.take (cs.length - n)

/-- Value of a nonempty all-digit character list, `none` otherwise. -/
def pyDigits? (cs : List Char) : Option Nat :=
  if cs ≠ [] ∧ cs.all Char.isDigit then
    some (cs.foldl (fun a c => a * 10 + (c.toNat - 48)) 0)
  else
    Option.none

/-- Python `int(s)` with base 10: optional sign followed by decimal digits,
`none` where Python raises `ValueError`.  (PEP 515 underscore grouping and
non-ASCII digits are not modelled; no input in this development uses them.) -/
def pyIntChars? : List Char → Option Int
  | '+' :: rest => (pyDigits? rest).map Int.ofNat
  | '-' :: rest => (pyDigits? rest).map (fun n => -(n : Int))
  | cs => (pyDigits? cs).map Int.ofNat

/-! ### `picoboot/platform.py` -/

/-- The `Platform` enumeration exactly as declared in `picoboot/platform.py`:
members `RP2040`, `RP2350`, `ESP32S3`, `ESP32S2`, `ESP32C3`, `UNKNOWN`.
(There is no `ESP32` member.) -/
inductive Platform where
  | RP2040
  | RP2350
  | ESP32S3
  | ESP32S2
  | ESP32C3
  | UNKNOWN
deriving DecidableEq, Repr

/-- The 24-bit magic value backing each `Platform` member. -/
def platformValue : Platform → Nat
  | .RP2040 => 0x01754d
  | .RP2350 => 0x02754d
  | .ESP32S3 => 0x03754d
  | .ESP32S2 => 0x04754d
  | .ESP32C3 => 0x05754d
  | .UNKNOWN => 0x000000

/-- `EspBoot._determine_platform` as a function of the chip name.  The source
lower-cases the name and tests, in order, the substrings `"esp32-s3"`,
`"esp32-s2"`, `"esp32c3"` (note: no hyphen) and `"esp32"`.  The bare-`"esp32"`
branch executes `return Platform.ESP32`, but `picoboot/platform.py` declares no
`ESP32` member, so that attribute access raises `AttributeError` (modelled from
the spec: the `NamedIntEnum` base resolves member names like a standard enum
and fails on an unknown name). -/
def determine_platform (chipName : String) : Except PyErr Platform :=
  let name := lowerChars chipName.toList
  if charsContain "esp32-s3".toList name then .ok .ESP32S3
  else if charsContain "esp32-s2".toList name then .ok .ESP32S2
  else if charsContain "esp32c3".toList name then .ok .ESP32C3
  else if charsContain "esp32".toList name then .error .attrError
  else .ok .UNKNOWN

/-! ### `EspBoot._flash_size_to_bytes` -/

/-- `EspBoot._flash_size_to_bytes`: `None` passes through as `None`; an `int`
is returned as-is; a string is stripped, upper-cased, and interpreted with an
`MB`, `KB` or `B` suffix or as a bare integer, any parse failure yielding
`None` (the source's `except: return None`). -/
def flash_size_to_bytes : PyVal → Option Int
  | .none => Option.none
  | .int n => some n
  | .str s0 =>
    let s := upperChars (stripChars s0.toList)
    if charsEndWith s "MB".toList then
      (pyIntChars? (charsDropRight s 2)).map (· * (1024 * 1024))
    else if charsEndWith s "KB".toList then
      (pyIntChars? (charsDropRight s 2)).map (· * 1024)
    else if charsEndWith s "B".toList then
      pyIntChars? (charsDropRight s 1)
    else
      pyIntChars? s

/-! ### The device handle and controller state -/

/-- The value returned by the toolkit's `read_mac`: the source handles an
`int` (converted with `to_bytes(6, "big")`) and byte-string values
(`bytes`/`bytearray`/any iterable, all collapsing to a byte list). -/
inductive MacVal where
  | int (n : Nat)
  | bytes (bs : List Nat)
deriving DecidableEq, Repr

/-- The attributes of the opaque esptool device handle (`self._esp`) that
`espboot.py` consults.  For an optional method, the outer `Option` is the
`hasattr`/`callable` test and the inner `Option` is the call's outcome
(`none` = the call raised). -/
structure EspHandle where
  /-- `CHIP_NAME` attribute; `none` when absent (`getattr` default applies). -/
  chipName : Option String := Option.none
  /-- `get_chip_id` method: absent / raised / returned value. -/
  getChipId : Option (Option Int) := Option.none
  /-- `chip_id` attribute (`getattr(..., None)` collapses absent and `None`). -/
  chipIdAttr : Option Int := Option.none
  /-- `read_mac` method: absent / raised / returned value. -/
  readMac : Option (Option MacVal) := Option.none
  /-- `get_chip_description` method: absent-or-not-callable / raised / value. -/
  getChipDescription : Option (Option String) := Option.none
  /-- `get_chip_features` method: absent-or-not-callable / raised / value. -/
  getChipFeatures : Option (Option (List String)) := Option.none
deriving DecidableEq, Repr

/-- The mutable state of an `EspBoot` instance: `self.port`, `self._esp`,
`self._stack` (modelled by its presence), the name-mangled
`self.__monitor` (presence), `self._cached_serial_number` (absent when the
attribute was never set) and `self._flash_size`. -/
structure EspBoot where
  port : Option String := Option.none
  esp : Option EspHandle := Option.none
  stack : Bool := false
  monitor : Bool := false
  cachedSerial : Option (List Nat) := Option.none
  flashSize : Option Int := Option.none
deriving DecidableEq, Repr

/-! ### Serial-port enumeration (`EspBoot._list_serial_ports`) -/

/-- One entry of `serial.tools.list_ports.comports()`: device path plus the
textual and vendor-id metadata the heuristic consults (`None`-able fields are
`Option`s; `getattr(p, ..., "")` collapses an absent attribute and `""`). -/
structure PortInfo where
  device : String
  description : Option String := Option.none
  manufacturer : Option String := Option.none
  product : Option String := Option.none
  vid : Option Nat := Option.none
deriving DecidableEq, Repr

/-- `ESP_SERIAL_VIDS` from `espboot.py`. -/
def ESP_SERIAL_VIDS : List Nat := [0x303A, 0x10C4, 0x1A86, 0x0403, 0x067B]

/-- `ESP_SERIAL_KEYWORDS` from `espboot.py`. -/
def ESP_SERIAL_KEYWORDS : List String :=
  ["esp", "cp210", "ch340", "ch910", "ftdi", "silicon labs"]

/-- The lower-cased `" ".join(filter(None, [description, manufacturer,
product]))` text of a port (`filter(None, ...)` drops `None` and `""`). -/
def portDesc (p : PortInfo) : List Char :=
  lowerChars (String.intercalate " "
    (([p.description, p.manufacturer, p.product].filterMap id).filter (· ≠ ""))).toList

/-- The preference test of `_list_serial_ports`: known USB vendor id, or a
known keyword occurring in the port's descriptive text. -/
def isPreferredPort (p : PortInfo) : Bool :=
  (match p.vid with
   | some v => decide (v ∈ ESP_SERIAL_VIDS)
   | Option.none => false)
  || ESP_SERIAL_KEYWORDS.any (fun k => charsContain k.toList (portDesc p))

/-- `EspBoot._list_serial_ports` as a function of the enumerated ports: a
single pass appends each device path to a `preferred` or an `others` list,
and the result is `preferred + others`. -/
def list_serial_ports (ports : List PortInfo) : List String :=
  if ports.isEmpty then []
  else
    let pair := ports.foldl
      (fun (acc : List String × List String) p =>
        if isPreferredPort p then (acc.1 ++ [p.device], acc.2)
        else (acc.1, acc.2 ++ [p.device]))
      ([], [])
    pair.1 ++ pair.2

/-! ### Identification operations -/

/-- `EspBoot.chip_name`: guard on `self._esp`, then
`getattr(self._esp, "CHIP_NAME", "unknown")`. -/
def chip_name (d : EspBoot) : Except EspBootErr String :=
  match d.esp with
  | Option.none => .error (.generic "Device not connected")
  | some h => .ok (h.chipName.getD "unknown")

/-- `EspBoot.chip_id`: guard on `self._esp`; call `get_chip_id` when it is a
callable attribute (an exception yields `None`), else read the `chip_id`
attribute with a `None` default. -/
def chip_id (d : EspBoot) : Except EspBootErr (Option Int) :=
  match d.esp with
  | Option.none => .error (.generic "Device not connected")
  | some h =>
    match h.getChipId with
    | some r => .ok r
    | Option.none => .ok h.chipIdAttr

/-! ### `EspBoot.serial_number_str` -/

/-- The uppercase hex digit for `n < 16`, as in Python's `X` format code. -/
def hexDigitU (n : Nat) : Char :=
  if n < 10 then Char.ofNat (48 + n) else Char.ofNat (55 + n)

/-- Python `f"{b:02X}"` for a byte value `b < 256`. -/
def byteHexU (b : Nat) : List Char :=
  [hexDigitU (b / 16 % 16), hexDigitU (b % 16)]

/-- Membership in the uppercase hexadecimal alphabet. -/
def isHexUpperChar (c : Char) : Bool :=
  "0123456789ABCDEF".toList.contains c

/-- `"".join(f"{b:02X}" for b in bs)`. -/
def bytesHexUpper (bs : List Nat) : String :=
  String.mk (bs.foldr (fun b acc => byteHexU b ++ acc) [])

/-- Python `n.to_bytes(6, "big")` for `n < 2^48`. -/
def toBytesBE6 (n : Nat) : List Nat :=
  [n / 2 ^ 40 % 256, n / 2 ^ 32 % 256, n / 2 ^ 24 % 256,
   n / 2 ^ 16 % 256, n / 2 ^ 8 % 256, n % 256]

/-- Normalization of the MAC value to a byte list: an `int` goes through
`to_bytes(6, "big")` (raising `OverflowError` when it does not fit — that
conversion sits outside any `try` in the source), byte strings pass through. -/
def macValToBytes : MacVal → Except PyErr (List Nat)
  | .int n => if n < 2 ^ 48 then .ok (toBytesBE6 n) else .error .overflow
  | .bytes bs => .ok bs

/-- Python `b"\x00" * (8 - len(bs)) + bs`: left zero-padding to 8 bytes
(no-op when `bs` is already 8 bytes or longer, since `Nat` subtraction and
Python's negative bytes-repetition both bottom out at zero). -/
def pad8 (bs : List Nat) : List Nat :=
  List.replicate (8 - bs.length) 0 ++ bs

/-- `EspBoot.serial_number_str`: guard on `self._esp`; try `read_mac` (absence
or an exception leaves `mac = None`); fall back to `self._cached_serial_number`
when that attribute exists, else to six zero bytes; normalize to bytes; left
zero-pad to 8 bytes; raise `EspBootError("Invalid MAC address length")` when
the padded value is not exactly 8 bytes; finally render the 8 bytes in
reversed order as contiguous uppercase hex. -/
def serial_number_str (d : EspBoot) : Except PyErr String :=
  match d.esp with
  | Option.none => .error (.esp (.generic "Device not connected"))
  | some h =>
    let read : Option MacVal :=
      match h.readMac with
      | Option.none => Option.none
      | some r => r
    let mac : MacVal :=
      match read with
      | some v => v
      | Option.none =>
        match d.cachedSerial with
        | some bs => .bytes bs
        | Option.none => .bytes (List.replicate 6 0)
    match macValToBytes mac with
    | .error e => .error e
    | .ok bs =>
      let padded := pad8 bs
      if padded.length ≠ 8 then .error (.esp (.generic "Invalid MAC address length"))
      else .ok (bytesHexUpper padded.reverse)

/-! ### `EspBoot.get_chip_info` -/

/-- The record built by `get_chip_info`: mandatory chip name / chip id /
platform value / port entries, plus description and features entries that are
omitted when the underlying call is absent or raises. -/
structure ChipInfo where
  chip_name : String
  chip_id : Option Int
  platform : Nat
  port : Option String
  description : Option String := Option.none
  features : Option (List String) := Option.none
deriving DecidableEq, Repr

/-- `EspBoot.get_chip_info`: guard on `self._esp`, then assemble the info
record.  The `platform` entry evaluates `self.platform.value`, which raises
`AttributeError` for a bare-`"esp32"` chip name (see `determine_platform`);
that exception propagates out of the whole call. -/
def get_chip_info (d : EspBoot) : Except PyErr ChipInfo :=
  match d.esp with
  | Option.none => .error (.esp (.generic "Device not connected"))
  | some h =>
    let name := h.chipName.getD "unknown"
    match determine_platform name with
    | .error e => .error e
    | .ok pf =>
      .ok { chip_name := name
            chip_id := (match h.getChipId with
                        | some r => r
                        | Option.none => h.chipIdAttr)
            platform := platformValue pf
            port := d.port
            description := (match h.getChipDescription with
                            | some (some s) => some s
                            | _ => Option.none)
            features := (match h.getChipFeatures with
                         | some (some f) => some f
                         | _ => Option.none) }

/-! ### `EspBoot.get_flash_size` -/

/-- The `size` value of `get_flash_size` after its two `if size is None`
fallbacks: the toolkit result when it is not `None`, else the attribute
value, else `None`. -/
def effectiveFlashSize (toolkit attr : Option PyVal) : PyVal :=
  let size : PyVal :=
    match toolkit with
    | some v => v
    | Option.none => .none
  match size with
  | .none =>
    (match attr with
     | some v => v
     | Option.none => .none)
  | v => v

/-- `EspBoot.get_flash_size`.  Oracles: `toolkit` is the size component of
`_get_flash_info(self._esp)` (`none` when the import or the call fails), and
`attr` is the value of the first attribute among `flash_size`, `FLASH_SIZE`,
`FLASH_SIZE_BYTES` present on the handle (`none` when none exists).  The
cached `self._flash_size` short-circuits; a size that is still `None` after
both fallbacks, or fails to parse, raises the generic
`"Unable to determine flash size programmatically"` error (the diagnostic
`flash_id` call before the first raise has no bearing on the result). -/
def get_flash_size (d : EspBoot) (toolkit : Option PyVal) (attr : Option PyVal) :
    Except EspBootErr Int :=
  match d.esp with
  | Option.none => .error (.generic "Device not connected")
  | some _ =>
    match d.flashSize with
    | some n => .ok n
    | Option.none =>
      match effectiveFlashSize toolkit attr with
      | .none => .error (.generic "Unable to determine flash size programmatically")
      | v =>
        match flash_size_to_bytes v with
        | some n => .ok n
        | Option.none => .error (.generic "Unable to determine flash size programmatically")

/-! ### Lifecycle: `close`, `is_connected` -/

/-- `EspBoot.close`: when `self._stack` is present, stop the monitor, close
the stack, and clear `self.__monitor`, `self._stack` and `self._esp`.
`self.port`, `self._cached_serial_number` and `self._flash_size` are left
untouched.  A second call finds `self._stack is None` and does nothing. -/
def close (d : EspBoot) : EspBoot :=
  if d.stack then { d with monitor := false, stack := false, esp := Option.none }
  else d

/-- `EspBoot._is_port_present(port)`: membership of `port` in the (reordered)
enumeration; an `EspBootError` from the enumeration (oracle value `none`,
e.g. pyserial missing) yields `False`. -/
def is_port_present (port : String) (enumr : Option (List PortInfo)) : Bool :=
  match enumr with
  | Option.none => false
  | some ports => decide (port ∈ list_serial_ports ports)

/-- `EspBoot.is_connected`: `False` when `self.port is None`, else a physical
presence check of the port against the live enumeration — no `self._esp`
guard and no invalid-state error. -/
def is_connected (d : EspBoot) (enumr : Option (List PortInfo)) : Bool :=
  match d.port with
  | Option.none => false
  | some p => is_port_present p enumr

/-! ### Flash writing and resets, with an external-call trace -/

/-- An observable external action of a flash/reset operation: a toolkit call
or a local file open/close. -/
inductive ExtCall where
  | writeFlashCall
  | resetChipCall (mode : String)
  | fileOpen (path : String)
  | fileClose (path : String)
deriving DecidableEq, Repr

/-- `EspBoot.write_flash`: guard on `self._esp`, then a single
`write_flash(self._esp, [(addr, data)])` toolkit call whose failure
(oracle `writeOk = false`) propagates unwrapped. -/
def write_flash (d : EspBoot) (addr : Int) (data : List Nat) (writeOk : Bool) :
    Except PyErr Unit × List ExtCall :=
  match d.esp with
  | Option.none => (.error (.esp (.generic "Device not connected")), [])
  | some _ =>
    if writeOk then (.ok (), [.writeFlashCall])
    else (.error .toolkit, [.writeFlashCall])

/-- The opening loop of `write_flash_files`: `open(path, "rb")` on each
segment in order, stopping at the first failing open (oracle
`openOk path = false`, modelling an `OSError`).  Returns the paths opened, in
order, and whether every open succeeded. -/
def openSegments (openOk : String → Bool) : List (Int × String) → List String × Bool
  | [] => ([], true)
  | (_, path) :: rest =>
    if openOk path then
      let (o, ok) := openSegments openOk rest
      (path :: o, ok)
    else
      ([], false)

/-- `EspBoot.write_flash_files`: guard on `self._esp`; open every segment for
binary reading; pass the opened handles to the toolkit's `write_flash` (only
reached when every open succeeded); the `finally` block closes every opened
handle in order, swallowing close-time exceptions, whether the loop, the
toolkit call, or nothing failed. -/
def write_flash_files (d : EspBoot) (segments : List (Int × String))
    (openOk : String → Bool) (writeOk : Bool) :
    Except PyErr Unit × List ExtCall :=
  match d.esp with
  | Option.none => (.error (.esp (.generic "Device not connected")), [])
  | some _ =>
    let (opened, allOk) := openSegments openOk segments
    let closes := opened.map ExtCall.fileClose
    if allOk then
      if writeOk then (.ok (), opened.map ExtCall.fileOpen ++ [.writeFlashCall] ++ closes)
      else (.error .toolkit, opened.map ExtCall.fileOpen ++ [.writeFlashCall] ++ closes)
    else
      (.error .ioError, opened.map ExtCall.fileOpen ++ closes)

/-- `EspBoot.reset`: guard on `self._esp`, then `reset_chip(self._esp, mode)`
inside a `try/except` that swallows every failure, so the call always
returns `None` once connected. -/
def reset (d : EspBoot) (mode : String) : Except PyErr Unit × List ExtCall :=
  match d.esp with
  | Option.none => (.error (.esp (.generic "Device not connected")), [])
  | some _ => (.ok (), [.resetChipCall mode])

/-- `EspBoot.reboot`: guard on `self._esp`, then
`reset_chip(self._esp, "reset" if bootsel else "hard-reset")` with failures
swallowed. -/
def reboot (d : EspBoot) (bootsel : Bool) : Except PyErr Unit × List ExtCall :=
  match d.esp with
  | Option.none => (.error (.esp (.generic "Device not connected")), [])
  | some _ => (.ok (), [.resetChipCall (if bootsel then "reset" else "hard-reset")])

/-! ### `EspBoot._auto_detect_port` and `EspBoot.open` -/

/-- The candidate loop of `_auto_detect_port`: `detect_chip` on each port in
order (`connect` returns the raised exception's text on failure, which the
loop discards via `continue`).  Returns the ports attempted, in order, and
the first successful `(port, handle)` pair, if any. -/
def tryPorts (connect : String → Except String EspHandle) :
    List String → List String × Option (String × EspHandle)
  | [] => ([], Option.none)
  | p :: rest =>
    match connect p with
    | .ok h => ([p], some (p, h))
    | .error _ =>
      let (t, r) := tryPorts connect rest
      (p :: t, r)

/-- `EspBoot._auto_detect_port`: enumerate (reordered) candidate ports;
raise `EspBootNotFoundError("No serial ports found for ESP32 detection")`
when there are none; otherwise try each once and raise
`EspBootNotFoundError("No ESP32 device detected. Pass port explicitly.")`
when every attempt failed.  Also returns the list of attempted ports. -/
def auto_detect_port (env : List PortInfo) (connect : String → Except String EspHandle) :
    List String × Except EspBootErr (String × EspHandle) :=
  let ports := list_serial_ports env
  if ports.isEmpty then
    ([], .error (.notFound "No serial ports found for ESP32 detection"))
  else
    match tryPorts connect ports with
    | (tried, some pe) => (tried, .ok pe)
    | (tried, Option.none) =>
      (tried, .error (.notFound "No ESP32 device detected. Pass port explicitly."))

/-- Python `str(port)` for the `port` variable inside `open`'s f-string when
auto-detection failed before reassigning it: `"None"` for `None`, the string
itself otherwise. -/
def pyPortStr : Option String → String
  | Option.none => "None"
  | some s => s

/-- `EspBoot.open`.  Oracles: `env` is the serial enumeration, `connect p` is
`detect_chip(p, connect_attempts=1)` (error = the exception's text),
`stubRes` is `run_stub`, `attachRes` is `attach_flash`, and `flashInfoSize`
is the size component of the best-effort `_get_flash_info` call (`none` when
it raises).  `port=None` and `port="auto"` take the auto-detection path; any
failure up to and including `attach_flash` closes the stack and is re-raised
as `EspBootError(f"Failed to open ESP32 on port {port}: {e}")`, where `port`
is still the original argument if auto-detection failed.  On success the
returned state carries the resolved port, the (possibly stubbed) handle, the
best-effort flash-size cache, and a started monitor.  The first component is
the list of ports on which `detect_chip` was attempted. -/
def openEsp (portArg : Option String) (runStubFlasher : Bool) (env : List PortInfo)
    (connect : String → Except String EspHandle)
    (stubRes : EspHandle → Except String EspHandle)
    (attachRes : EspHandle → Except String Unit)
    (flashInfoSize : Option PyVal) :
    List String × Except EspBootErr EspBoot :=
  let detected : List String × Except (String × String) (String × EspHandle) :=
    match portArg with
    | Option.none =>
      (match auto_detect_port env connect with
       | (tried, .ok pe) => (tried, .ok pe)
       | (tried, .error e) => (tried, .error (pyPortStr portArg, e.msg)))
    | some "auto" =>
      (match auto_detect_port env connect with
       | (tried, .ok pe) => (tried, .ok pe)
       | (tried, .error e) => (tried, .error (pyPortStr portArg, e.msg)))
    | some p =>
      (match connect p with
       | .ok h => ([p], .ok (p, h))
       | .error m => ([p], .error (p, m)))
  match detected with
  | (tried, .error (pv, m)) =>
    (tried, .error (.generic ("Failed to open ESP32 on port " ++ pv ++ ": " ++ m)))
  | (tried, .ok (p, h)) =>
    let stubbed : Except String EspHandle :=
      if runStubFlasher then stubRes h else .ok h
    match stubbed with
    | .error m =>
      (tried, .error (.generic ("Failed to open ESP32 on port " ++ p ++ ": " ++ m)))
    | .ok h2 =>
      match attachRes h2 with
      | .error m =>
        (tried, .error (.generic ("Failed to open ESP32 on port " ++ p ++ ": " ++ m)))
      | .ok _ =>
        let fs : Option Int :=
          match flashInfoSize with
          | Option.none => Option.none
          | some v => flash_size_to_bytes v
        (tried,
         .ok { port := some p, esp := some h2, stack := true, monitor := true,
               cachedSerial := Option.none, flashSize := fs })

/-! ### The presence monitor (`espbootmonitor.py`) -/

/-- A notification delivered through the observer: `on_connect(port)` or
`on_disconnect(port)`. -/
inductive MonEvent where
  | connect (port : String)
  | disconnect (port : String)
deriving DecidableEq, Repr

/-- One iteration of `EspBootMonitor._run`'s loop: recompute `present` from
the live enumeration, then the two sequential transition `if`s of the source,
each flipping `self._device_present` and (when `self._cls_callback` is set)
notifying the observer.  Returns the new flag and the notifications issued. -/
def monitorPoll (target : String) (hasCb : Bool) (live : List String)
    (devicePresent : Bool) : Bool × List MonEvent :=
  let present := decide (target ∈ live)
  let step1 : Bool × List MonEvent :=
    if present && !devicePresent then
      (true, if hasCb then [.connect target] else [])
    else
      (devicePresent, [])
  let step2 : Bool × List MonEvent :=
    if !present && step1.1 then
      (false, if hasCb then [.disconnect target] else [])
    else
      (step1.1, [])
  (step2.1, step1.2 ++ step2.2)

/-- The polling loop over a finite schedule of enumerations (one list of live
device paths per poll), accumulating the notifications in order. -/
def monitorRun (target : String) (hasCb : Bool) (st : Bool) :
    List (List String) → Bool × List MonEvent
  | [] => (st, [])
  | live :: rest =>
    let (st1, evs) := monitorPoll target hasCb live st
    let (st2, evs2) := monitorRun target hasCb st1 rest
    (st2, evs ++ evs2)

/-! ### Concrete fixtures -/

/-- A controller that was never opened, or has been closed: no device handle,
no stack, no monitor — only the port survives. -/
def closedEspBoot : EspBoot := { port := some "COM3" }

/-- An open controller whose `read_mac` yields the six bytes
`b"\x01\x02\x03\x04\x05\x06"`. -/
def sixByteMacBoot : EspBoot :=
  { port := some "COM3",
    esp := some { readMac := some (some (.bytes [1, 2, 3, 4, 5, 6])) },
    stack := true, monitor := true }

/-- An open controller whose `read_mac` yields nine bytes. -/
def nineByteMacBoot : EspBoot :=
  { port := some "COM3",
    esp := some { readMac := some (some (.bytes [1, 2, 3, 4, 5, 6, 7, 8, 9])) },
    stack := true, monitor := true }

/-- An open controller with no cached flash size. -/
def flashlessBoot : EspBoot :=
  { port := some "COM3", esp := some {}, stack := true, monitor := true }

/-- The port of the C8 scenario that matches neither heuristic. -/
def plainPort : PortInfo :=
  { device := "portA", description := some "Generic UART", vid := some 0x1234 }

/-- The port of the C8 scenario with the Espressif vendor id. -/
def espressifPort : PortInfo :=
  { device := "portB", description := some "", vid := some 0x303A }

/-! ### Helper lemmas -/

theorem serialFold_eq (ports : List PortInfo) (acc : List String × List String) :
    ports.foldl
      (fun (acc : List String × List String) p =>
        if isPreferredPort p then (acc.1 ++ [p.device], acc.2)
        else (acc.1, acc.2 ++ [p.device])) acc =
    (acc.1 ++ (ports.filter isPreferredPort).map PortInfo.device,
     acc.2 ++ (ports.filter (fun p => !isPreferredPort p)).map PortInfo.device) := by
  induction ports generalizing acc with
  | nil => simp
  | cons p rest ih =>
    by_cases h : isPreferredPort p = true <;>
      simp [List.filter_cons, h, ih]

/-- `_list_serial_ports` is the preferred/other partition of the enumeration,
each side keeping its relative order. -/
theorem list_serial_ports_eq (ports : List PortInfo) :
    list_serial_ports ports =
      (ports.filter isPreferredPort).map PortInfo.device ++
      (ports.filter (fun p => !isPreferredPort p)).map PortInfo.device := by
  cases ports with
  | nil => simp [list_serial_ports]
  | cons p rest =>
    by_cases h : isPreferredPort p = true <;>
      simp [list_serial_ports, serialFold_eq, List.filter_cons, h]

theorem length_filter_partition {α : Type u} (p : α → Bool) (l : List α) :
    (l.filter p).length + (l.filter (fun a => !p a)).length = l.length := by
  induction l with
  | nil => rfl
  | cons a t ih =>
    by_cases h : p a = true <;> simp [List.filter_cons, h] <;> omega

/-- The reordering never drops or duplicates a port. -/
theorem list_serial_ports_length (ports : List PortInfo) :
    (list_serial_ports ports).length = ports.length := by
  rw [list_serial_ports_eq]
  simp [length_filter_partition isPreferredPort ports]

/-- When every connection attempt fails, the candidate loop tries every
candidate, in order, exactly once, and finds nothing. -/
theorem tryPorts_all_fail (connect : String → Except String EspHandle)
    (h : ∀ p, (connect p).toOption = Option.none) (l : List String) :
    tryPorts connect l = (l, Option.none) := by
  induction l with
  | nil => rfl
  | cons p rest ih =>
    cases hc : connect p with
    | ok v =>
      have := h p
      rw [hc] at this
      simp [Except.toOption] at this
    | error m => simp [tryPorts, hc, ih]

theorem monitorPoll_fst (t : String) (cb : Bool) (live : List String) (st : Bool) :
    (monitorPoll t cb live st).1 = decide (t ∈ live) := by
  by_cases hm : t ∈ live <;> cases st <;> simp [monitorPoll, hm]

theorem monitorRun_fst_last (t : String) (cb : Bool) (polls : List (List String))
    (last : List String) (st : Bool) :
    (monitorRun t cb st (polls ++ [last])).1 = decide (t ∈ last) := by
  induction polls generalizing st with
  | nil => simp [monitorRun, monitorPoll_fst]
  | cons a rest ih => simp [monitorRun, ih]

theorem hexDigitU_isHex : ∀ n < 16, isHexUpperChar (hexDigitU n) = true := by decide

theorem hexFold_length (bs : List Nat) :
    (bs.foldr (fun b acc => byteHexU b ++ acc) []).length = 2 * bs.length := by
  induction bs with
  | nil => rfl
  | cons b t ih =>
    simp only [List.foldr_cons, List.length_append, ih]
    simp [byteHexU]
    omega

theorem bytesHexUpper_length (bs : List Nat) :
    (bytesHexUpper bs).length = 2 * bs.length := by
  have h : (bytesHexUpper bs).length
      = (bs.foldr (fun b acc => byteHexU b ++ acc) []).length := rfl
  rw [h, hexFold_length]

theorem hexFold_chars (bs : List Nat) (c : Char)
    (hc : c ∈ bs.foldr (fun b acc => byteHexU b ++ acc) []) :
    isHexUpperChar c = true := by
  induction bs with
  | nil => simp at hc
  | cons b t ih =>
    simp only [List.foldr_cons, List.mem_append] at hc
    rcases hc with hc | hc
    · simp only [byteHexU, List.mem_cons, List.not_mem_nil, or_false] at hc
      rcases hc with rfl | rfl
      · exact hexDigitU_isHex _ (Nat.mod_lt _ (by omega))
      · exact hexDigitU_isHex _ (Nat.mod_lt _ (by omega))
    · exact ih hc

theorem bytesHexUpper_chars (bs : List Nat) (c : Char)
    (hc : c ∈ (bytesHexUpper bs).toList) : isHexUpperChar c = true := by
  exact hexFold_chars bs c hc

theorem fileOpen_injective : Function.Injective ExtCall.fileOpen := by
  intro a b h
  injection h

theorem fileClose_injective : Function.Injective ExtCall.fileClose := by
  intro a b h
  injection h

theorem count_fileOpen_map_open (p : String) (l : List String) :
    (l.map ExtCall.fileOpen).count (ExtCall.fileOpen p) = l.count p :=
  List.count_map_of_injective l ExtCall.fileOpen fileOpen_injective p

theorem count_fileClose_map_close (p : String) (l : List String) :
    (l.map ExtCall.fileClose).count (ExtCall.fileClose p) = l.count p :=
  List.count_map_of_injective l ExtCall.fileClose fileClose_injective p

theorem count_fileOpen_map_close (p : String) (l : List String) :
    (l.map ExtCall.fileClose).count (ExtCall.fileOpen p) = 0 := by
  rw [List.count_eq_zero]
  intro hmem
  rcases List.mem_map.1 hmem with ⟨x, _, hx⟩
  exact absurd hx (by simp)

theorem count_fileClose_map_open (p : String) (l : List String) :
    (l.map ExtCall.fileOpen).count (ExtCall.fileClose p) = 0 := by
  rw [List.count_eq_zero]
  intro hmem
  rcases List.mem_map.1 hmem with ⟨x, _, hx⟩
  exact absurd hx (by simp)

/-! ## Claims -/

/-- C1 (counterexample): on a closed controller, `chip_name` raises the
generic `EspBootError` with message `"Device not connected"` — not, as
claimed, the `InvalidStateError` kind with message `"device not connected"`. -/
theorem C1_invalidstate_counterexample :
    chip_name closedEspBoot = .error (.generic "Device not connected") ∧
    chip_name closedEspBoot ≠ .error (.invalidState "device not connected") ∧
    (match chip_name closedEspBoot with
     | .error e => e.isInvalidState
     | .ok _ => false) = false := by
  decide

/-- C1 (amended): every identification operation (`chip_name`, `chip_id`,
`serial_number_str`, `get_chip_info`), flash operation (`get_flash_size`,
`write_flash`, `write_flash_files`) and reset operation (`reset`, `reboot`)
on a controller whose device handle is absent fails with the generic
ESP32-family `EspBootError` carrying the message `"Device not connected"`,
without attempting any underlying toolkit call or file open (empty external
trace), for every choice of arguments and oracle outcomes. -/
theorem C1_closed_guard (d : EspBoot) (hd : d.esp = Option.none)
    (toolkit attr : Option PyVal) (addr : Int) (data : List Nat)
    (segments : List (Int × String)) (openOk : String → Bool) (w1 w2 : Bool)
    (mode : String) (bootsel : Bool) :
    chip_name d = .error (.generic "Device not connected") ∧
    chip_id d = .error (.generic "Device not connected") ∧
    serial_number_str d = .error (.esp (.generic "Device not connected")) ∧
    get_chip_info d = .error (.esp (.generic "Device not connected")) ∧
    get_flash_size d toolkit attr = .error (.generic "Device not connected") ∧
    write_flash d addr data w1 = (.error (.esp (.generic "Device not connected")), []) ∧
    write_flash_files d segments openOk w2
      = (.error (.esp (.generic "Device not connected")), []) ∧
    reset d mode = (.error (.esp (.generic "Device not connected")), []) ∧
    reboot d bootsel = (.error (.esp (.generic "Device not connected")), []) := by
  refine ⟨?_, ?_, ?_, ?_, ?_, ?_, ?_, ?_, ?_⟩ <;>
    simp [chip_name, chip_id, serial_number_str, get_chip_info, get_flash_size,
          write_flash, write_flash_files, reset, reboot, hd]

/-- C1 (witness): the guard at a concrete closed controller. -/
theorem C1_closed_guard_witness :
    chip_name closedEspBoot = .error (.generic "Device not connected") :=
  (C1_closed_guard closedEspBoot rfl Option.none Option.none 0 [] []
    (fun _ => true) true true "hard-reset" false).1

/-- C3 (code bug): the platform classification at the claim's inputs.
`"ESP32-S3 (revision 2)"` and `"esp32-s2-xyz"` classify as claimed and an
unrecognized name yields `UNKNOWN`, but `"ESP32-C3"` does not contain the
tested substring `"esp32c3"` (the source omits the hyphen), falls into the
bare-`"esp32"` branch, and that branch returns the nonexistent member
`Platform.ESP32` — an `AttributeError` — instead of `ESP32C3`; the chip name
`"ESP32"` hits the same nonexistent member instead of yielding an `ESP32`
value. -/
theorem C3_platform_classification :
    determine_platform "ESP32-S3 (revision 2)" = .ok .ESP32S3 ∧
    determine_platform "eSp32-S2-xyz" = .ok .ESP32S2 ∧
    determine_platform "esp32c3" = .ok .ESP32C3 ∧
    determine_platform "ESP32-C3" = .error .attrError ∧
    determine_platform "ESP32" = .error .attrError ∧
    determine_platform "Generic UART bridge" = .ok .UNKNOWN := by
  decide

/-- C2 (counterexample): `open(port=None)` with zero enumerated serial ports
does fail, but with the generic `EspBootError` wrapping the not-found
message — not with the `NotFoundError` kind: the `except Exception` in `open`
catches the `EspBootNotFoundError` raised by `_auto_detect_port` and
re-raises `EspBootError(f"Failed to open ESP32 on port {port}: {e}")`. -/
theorem C2_notfound_counterexample :
    (openEsp Option.none true [] (fun _ => .error "no device")
        (fun h => .ok h) (fun _ => .ok ()) Option.none).2
      = .error (.generic
          "Failed to open ESP32 on port None: No serial ports found for ESP32 detection") ∧
    (match (openEsp Option.none true [] (fun _ => .error "no device")
        (fun h => .ok h) (fun _ => .ok ()) Option.none).2 with
     | .error e => e.isNotFound
     | .ok _ => false) = false := by
  decide

/-- C2 (amended): for `open` with `port=None` or `port="auto"` and every
connection attempt failing: with zero enumerated ports, `_auto_detect_port`
raises `EspBootNotFoundError("No serial ports found for ESP32 detection")`
and `open` re-raises it wrapped in the generic
`EspBootError("Failed to open ESP32 on port <port>: ...")`; with ports
present but none connecting, `_auto_detect_port` tries every candidate
exactly once (the attempted-ports trace is exactly the candidate list) and
raises `EspBootNotFoundError("No ESP32 device detected. Pass port
explicitly.")`, which `open` likewise wraps in the generic error. -/
theorem C2_open_wraps_notfound (portArg : Option String) (env : List PortInfo)
    (connect : String → Except String EspHandle)
    (stubRes : EspHandle → Except String EspHandle)
    (attachRes : EspHandle → Except String Unit) (fsz : Option PyVal)
    (hport : portArg = Option.none ∨ portArg = some "auto")
    (hfail : ∀ p, (connect p).toOption = Option.none) :
    (env = [] →
      auto_detect_port env connect
        = ([], .error (.notFound "No serial ports found for ESP32 detection")) ∧
      openEsp portArg true env connect stubRes attachRes fsz
        = ([], .error (.generic ("Failed to open ESP32 on port "
            ++ pyPortStr portArg ++ ": "
            ++ "No serial ports found for ESP32 detection")))) ∧
    (env ≠ [] →
      auto_detect_port env connect
        = (list_serial_ports env,
           .error (.notFound "No ESP32 device detected. Pass port explicitly.")) ∧
      openEsp portArg true env connect stubRes attachRes fsz
        = (list_serial_ports env,
           .error (.generic ("Failed to open ESP32 on port "
             ++ pyPortStr portArg ++ ": "
             ++ "No ESP32 device detected. Pass port explicitly.")))) := by
  constructor
  · intro henv
    subst henv
    have hauto : auto_detect_port [] connect
        = ([], .error (.notFound "No serial ports found for ESP32 detection")) := by
      simp [auto_detect_port, list_serial_ports]
    refine ⟨hauto, ?_⟩
    rcases hport with rfl | rfl <;> simp [openEsp, hauto, pyPortStr, EspBootErr.msg]
  · intro henv
    have hne : list_serial_ports env ≠ [] := by
      intro h0
      have hl := list_serial_ports_length env
      rw [h0] at hl
      exact henv (List.eq_nil_of_length_eq_zero hl.symm)
    have hie : (list_serial_ports env).isEmpty = false := by
      cases hsp : list_serial_ports env with
      | nil => exact absurd hsp hne
      | cons a l => rfl
    have hauto : auto_detect_port env connect
        = (list_serial_ports env,
           .error (.notFound "No ESP32 device detected. Pass port explicitly.")) := by
      simp [auto_detect_port, hie, tryPorts_all_fail connect hfail]
    refine ⟨hauto, ?_⟩
    rcases hport with rfl | rfl <;> simp [openEsp, hauto, pyPortStr, EspBootErr.msg]

/-- C2 (witness): the wrapped not-found failure at a concrete input with one
dead port. -/
theorem C2_open_wraps_notfound_witness :
    auto_detect_port [plainPort] (fun _ => .error "no device")
      = (["portA"], .error (.notFound "No ESP32 device detected. Pass port explicitly.")) :=
  by
  have h := (C2_open_wraps_notfound Option.none [plainPort]
      (fun _ => .error "no device") (fun h => .ok h) (fun _ => .ok ()) Option.none
      (Or.inl rfl) (fun _ => rfl)).2 (by decide)
  rw [h.1]
  decide

/-- C4: `serial_number_str` with a 6-byte live MAC `01 02 03 04 05 06` pads
to `00 00 01 02 03 04 05 06`, reverses to `06 05 04 03 02 01 00 00`, and
renders `"0605040302010000"`; in general any MAC of at most 8 bytes renders
as the byte-reversed zero-padded value, exactly 16 characters, all from the
uppercase hexadecimal alphabet, with no separators. -/
theorem C4_serial_number_format (d : EspBoot) (h : EspHandle) (bs : List Nat)
    (hesp : d.esp = some h) (hmac : h.readMac = some (some (.bytes bs)))
    (hlen : bs.length ≤ 8) :
    serial_number_str d = .ok (bytesHexUpper (pad8 bs).reverse) ∧
    (bytesHexUpper (pad8 bs).reverse).length = 16 ∧
    (∀ c ∈ (bytesHexUpper (pad8 bs).reverse).toList, isHexUpperChar c = true) ∧
    pad8 [1, 2, 3, 4, 5, 6] = [0, 0, 1, 2, 3, 4, 5, 6] ∧
    (pad8 [1, 2, 3, 4, 5, 6]).reverse = [6, 5, 4, 3, 2, 1, 0, 0] ∧
    bytesHexUpper [6, 5, 4, 3, 2, 1, 0, 0] = "0605040302010000" := by
  refine ⟨?_, ?_, ?_, by decide, by decide, by decide⟩
  · simp only [serial_number_str, hesp, hmac, macValToBytes]
    rw [if_neg]
    simp [pad8]
    omega
  · rw [bytesHexUpper_length]
    simp [pad8]
    omega
  · intro c hc
    exact bytesHexUpper_chars _ c hc

/-- C4 (witness): the rendered serial at the claim's concrete MAC. -/
theorem C4_serial_number_format_witness :
    serial_number_str sixByteMacBoot = .ok "0605040302010000" := by
  rw [(C4_serial_number_format sixByteMacBoot
    { readMac := some (some (.bytes [1, 2, 3, 4, 5, 6])) }
    [1, 2, 3, 4, 5, 6] rfl rfl (by decide)).1]
  decide

/-- C5: a MAC value longer than 8 bytes — whether delivered by a live
`read_mac` or by the cached fallback after a failed read — is unchanged by
the zero-padding, fails the `len(mac_bytes) != 8` check, and raises
`EspBootError("Invalid MAC address length")` instead of returning a
string. -/
theorem C5_mac_too_long (d : EspBoot) (h : EspHandle) (bs : List Nat)
    (hesp : d.esp = some h) (hlen : 8 < bs.length) :
    (h.readMac = some (some (.bytes bs)) →
      serial_number_str d = .error (.esp (.generic "Invalid MAC address length"))) ∧
    (h.readMac = some Option.none → d.cachedSerial = some bs →
      serial_number_str d = .error (.esp (.generic "Invalid MAC address length"))) := by
  constructor
  · intro hmac
    simp only [serial_number_str, hesp, hmac, macValToBytes]
    rw [if_pos]
    simp [pad8]
    omega
  · intro hmac hcache
    simp only [serial_number_str, hesp, hmac, hcache, macValToBytes]
    rw [if_pos]
    simp [pad8]
    omega

/-- C5 (witness): the invalid-length failure at a concrete 9-byte MAC. -/
theorem C5_mac_too_long_witness :
    serial_number_str nineByteMacBoot
      = .error (.esp (.generic "Invalid MAC address length")) :=
  (C5_mac_too_long nineByteMacBoot
    { readMac := some (some (.bytes [1, 2, 3, 4, 5, 6, 7, 8, 9])) }
    [1, 2, 3, 4, 5, 6, 7, 8, 9] rfl (by decide)).1 rfl

/-- C6: `_flash_size_to_bytes` maps `"4MB"` to `4194304`, `"512KB"` to
`524288`, `"1024B"` to `1024` and the bare numeric `"2097152"` to `2097152`;
and whenever the size descriptor left after `get_flash_size`'s fallbacks is
absent or unparseable, `get_flash_size` (with no cached size) raises the
generic `EspBootError("Unable to determine flash size programmatically")`. -/
theorem C6_flash_size (d : EspBoot) (h : EspHandle) (toolkit attr : Option PyVal)
    (hesp : d.esp = some h) (hcache : d.flashSize = Option.none)
    (hbad : flash_size_to_bytes (effectiveFlashSize toolkit attr) = Option.none) :
    flash_size_to_bytes (.str "4MB") = some 4194304 ∧
    flash_size_to_bytes (.str "512KB") = some 524288 ∧
    flash_size_to_bytes (.str "1024B") = some 1024 ∧
    flash_size_to_bytes (.str "2097152") = some 2097152 ∧
    get_flash_size d toolkit attr
      = .error (.generic "Unable to determine flash size programmatically") := by
  refine ⟨by decide, by decide, by decide, by decide, ?_⟩
  simp only [get_flash_size, hesp, hcache]
  cases hv : effectiveFlashSize toolkit attr with
  | none => simp
  | int n =>
    rw [hv] at hbad
    simp [flash_size_to_bytes] at hbad
  | str s =>
    rw [hv] at hbad
    simp [hbad]

/-- C6 (witness): the failure at a concrete unparseable toolkit size. -/
theorem C6_flash_size_witness :
    get_flash_size flashlessBoot (some (.str "lots")) Option.none
      = .error (.generic "Unable to determine flash size programmatically") :=
  (C6_flash_size flashlessBoot {} (some (.str "lots")) Option.none
    rfl rfl (by decide)).2.2.2.2

/-- C7: in the external trace of `write_flash_files`, every path has as many
close events as open events — every successfully opened file handle is closed
— whether every open succeeded and the toolkit write succeeded, the write
failed, an open failed partway through, or the controller was closed (empty
trace), for every segment list and oracle outcome. -/
theorem C7_every_open_file_closed (d : EspBoot) (segments : List (Int × String))
    (openOk : String → Bool) (writeOk : Bool) (p : String) :
    ((write_flash_files d segments openOk writeOk).2).count (ExtCall.fileOpen p) =
    ((write_flash_files d segments openOk writeOk).2).count (ExtCall.fileClose p) := by
  cases hesp : d.esp with
  | none => simp [write_flash_files, hesp]
  | some h =>
    simp only [write_flash_files, hesp]
    rcases hseg : openSegments openOk segments with ⟨opened, allOk⟩
    cases allOk <;> cases writeOk <;>
      simp [List.count_append, List.count_cons, count_fileOpen_map_open,
            count_fileClose_map_close, count_fileOpen_map_close,
            count_fileClose_map_open]

/-- C8: every port matching the vendor-id or keyword heuristic is placed by
`_list_serial_ports` before every port matching neither: a preferred port's
device path occurs at a strictly smaller index than a non-preferred one's. -/
theorem C8_preferred_ports_first (ports : List PortInfo) (a b : PortInfo)
    (ha : a ∈ ports) (hpa : isPreferredPort a = true)
    (hb : b ∈ ports) (hpb : isPreferredPort b = false) :
    ∃ i j : Nat, i < j ∧ (list_serial_ports ports)[i]? = some a.device ∧
      (list_serial_ports ports)[j]? = some b.device := by
  rw [list_serial_ports_eq]
  have haf : a.device ∈ (ports.filter isPreferredPort).map PortInfo.device :=
    List.mem_map_of_mem _ (List.mem_filter.2 ⟨ha, hpa⟩)
  have hbf : b.device
      ∈ (ports.filter (fun p => !isPreferredPort p)).map PortInfo.device :=
    List.mem_map_of_mem _ (List.mem_filter.2 ⟨hb, by simp [hpb]⟩)
  rcases List.mem_iff_getElem.1 haf with ⟨i, hi, hieq⟩
  rcases List.mem_iff_getElem.1 hbf with ⟨j0, hj0, hjeq⟩
  refine ⟨i, ((ports.filter isPreferredPort).map PortInfo.device).length + j0,
    by omega, ?_, ?_⟩
  · rw [List.getElem?_append_left hi, List.getElem?_eq_getElem hi, hieq]
  · rw [List.getElem?_append_right (by omega)]
    simp only [Nat.add_sub_cancel_left]
    rw [List.getElem?_eq_getElem hj0, hjeq]

/-- C8 (witness): in the claim's scenario — port A with vendor id `0x1234`
and description "Generic UART", port B with the Espressif vendor id `0x303A`
and empty description — B is tried before A. -/
theorem C8_preferred_ports_first_witness :
    ∃ i j : Nat, i < j ∧
      (list_serial_ports [plainPort, espressifPort])[i]? = some espressifPort.device ∧
      (list_serial_ports [plainPort, espressifPort])[j]? = some plainPort.device :=
  C8_preferred_ports_first [plainPort, espressifPort] espressifPort plainPort
    (by decide) (by decide) (by decide) (by decide)

/-- C9: one poll of the presence monitor sets the recorded flag to exactly
the presence observed at that poll and notifies the observer exactly once on
a transition — `on_connect` on absent-to-present, `on_disconnect` on
present-to-absent — and not at all when presence is unchanged; over any run,
the recorded flag after the final poll equals the presence observed there.
The concrete scenario absent → present → present → absent → absent yields
exactly one connect followed by one disconnect. -/
theorem C9_monitor_notifications (t : String) (live : List String) (st : Bool)
    (polls : List (List String)) (last : List String) :
    monitorPoll t true live st
      = (decide (t ∈ live),
         if decide (t ∈ live) = st then []
         else if t ∈ live then [MonEvent.connect t] else [MonEvent.disconnect t]) ∧
    (monitorRun t true st (polls ++ [last])).1 = decide (t ∈ last) ∧
    monitorRun "COM3" true false [[], ["COM3"], ["COM3"], [], []]
      = (false, [MonEvent.connect "COM3", MonEvent.disconnect "COM3"]) := by
  refine ⟨?_, monitorRun_fst_last t true polls last st, by decide⟩
  by_cases hm : t ∈ live <;> cases st <;> simp [monitorPoll, hm]

/-- C10: `close` clears only the device handle, the exit stack and the
monitor reference — the port and the cached fields survive — so
`is_connected` on a closed controller still consults the live enumeration
for the original port (it neither raises nor is constantly `False`), and on
the concrete closed controller whose port is still physically enumerated it
returns `True`. -/
theorem C10_close_keeps_port (d : EspBoot) (env : Option (List PortInfo))
    (hs : d.stack = true) :
    (close d).port = d.port ∧
    (close d).esp = Option.none ∧
    (close d).stack = false ∧
    (close d).monitor = false ∧
    (close d).cachedSerial = d.cachedSerial ∧
    (close d).flashSize = d.flashSize ∧
    is_connected (close d) env = is_connected d env ∧
    is_connected (close flashlessBoot) (some [{ device := "COM3" }]) = true := by
  refine ⟨?_, ?_, ?_, ?_, ?_, ?_, ?_, by decide⟩ <;>
    simp [close, hs, is_connected]

/-- C10 (witness): closing a concrete open controller leaves its port. -/
theorem C10_close_keeps_port_witness :
    (close flashlessBoot).port = flashlessBoot.port :=
  (C10_close_keeps_port flashlessBoot (some [{ device := "COM3" }]) rfl).1

end Espboot
